import Mathlib

/-!
Shallow embedding of the ingestion-and-aggregation pipeline of `src/main.py`
(a Streamlit dashboard over exported streaming-history JSON files).

Modelling conventions:
* A parsed timestamp (`pd.to_datetime` value) is reduced to the three calendar
  projections the pipeline actually reads: `.dt.year`, `.dt.hour` (0-23) and
  the day of week (`.dt.day_name()`, encoded as `Fin 7` with 0 = Monday,
  matching the `day_order` list in the source).
* A raw record's `ts` field is `Option Timestamp`: `some t` when
  `pd.to_datetime` can parse the text, `none` when it cannot (in which case
  `pd.to_datetime` raises on the whole concatenated frame).
* A source file is a directory entry: its name plus either a successfully
  `json.load`-ed list of records or a parse failure (any exception inside the
  per-file `try` block: malformed JSON, I/O error, bad encoding).
* `ms_played / 3600000` is computed in `ℚ` (exact), standing in for the float
  division of the source.
* pandas `groupby(sort=True).sum()` is modelled as: sorted deduplicated key
  list, each key paired with the sum of `hours_played` over its rows.
  `nlargest(n)` is a descending sort by value followed by `take n`, and
  `sort_values(ascending=True)` an ascending sort by value; tie order is
  unspecified in the source (unstable quicksort) and no claim depends on it.
* `pivot_table(index=day_of_week, columns=hour, values=hours_played,
  aggfunc=sum, fill_value=0)` with the day column made an ordered
  `pd.Categorical` over all seven day names: rows are all seven categories in
  Monday→Sunday order (pandas keeps unobserved categories), columns are the
  hours actually observed in the data, sorted ascending, and each cell is the
  sum of `hours_played` over the events in that (day, hour) bucket — which is
  `fill_value = 0` exactly when the bucket is empty.
-/

namespace Spotify

/-- The calendar projections of a parsed `ts` value used by the pipeline:
`dt.year`, `dt.hour` and the day of week (0 = Monday … 6 = Sunday). -/
structure Timestamp where
  year : Int
  hour : Fin 24
  dow : Fin 7
  deriving DecidableEq, Repr

/-- One JSON record as it sits in a source file, holding the four fields the
pipeline reads: `ts` (text; `some` iff `pd.to_datetime` can parse it),
`ms_played`, `master_metadata_album_artist_name` and
`master_metadata_track_name` (both nullable). -/
structure RawRecord where
  ts : Option Timestamp
  ms_played : Nat
  artist : Option String
  track : Option String
  deriving DecidableEq, Repr

/-- A row of the loaded dataframe `df`: all columns of the raw record, the
parsed timestamp, and the derived `hours_played` column. -/
structure Event where
  ts : Timestamp
  ms_played : Nat
  hours_played : ℚ
  artist : Option String
  track : Option String
  deriving DecidableEq, Repr

/-- What `json.load` + `pd.DataFrame` yields for one file: either the list of
records, or an exception caught by the per-file `try` block. -/
inductive FileContent where
  | parseError (msg : String)
  | records (rs : List RawRecord)
  deriving DecidableEq, Repr

/-- One entry of the source directory (`os.listdir('data/')`). -/
structure SrcFile where
  name : String
  content : FileContent
  deriving DecidableEq, Repr

/-- The observable outcome of `load_data()`:
* `fatalNoFiles` — `os.listdir` empty: `st.error("No JSON files found …")`
  then `st.stop()`, before any parse is attempted;
* `fatalNoValidData` — some entries exist but no `.json` file parsed:
  `st.error("No valid data loaded")` then `st.stop()`, after the loop
  (carrying the warnings emitted during the loop);
* `crashTs` — `pd.to_datetime(df['ts'])` raised on the concatenated frame
  (some record's timestamp text is unparseable): the exception escapes
  `load_data`, the whole load is lost;
* `ok log warnings` — the Event Log plus the `(filename, error)` warnings. -/
inductive LoadResult where
  | fatalNoFiles
  | fatalNoValidData (warnings : List (String × String))
  | crashTs (warnings : List (String × String))
  | ok (log : List Event) (warnings : List (String × String))
  deriving DecidableEq, Repr

/-- `s.endsWith t`, computed on the underlying character lists: the last
`t.length` characters of `s` equal `t`. -/
def strEndsWith (s t : String) : Bool :=
  s.toList.reverse.take t.toList.length == t.toList.reverse

/-- Code-point order on strings (the order Python/pandas sorts keys by),
computed on the underlying character lists. -/
def strLe (a b : String) : Prop :=
  a.toList ≤ b.toList

instance : DecidableRel strLe := fun a b =>
  inferInstanceAs (Decidable (a.toList ≤ b.toList))

/-- The directory entries whose name ends in `.json` — the only ones the
loader's loop tries to parse. -/
def qualifying (files : List SrcFile) : List SrcFile :=
  files.filter (fun f => strEndsWith f.name ".json")

/-- The `dataframes` list built by the loop: one batch per qualifying file
that parsed successfully, in directory order. -/
def parsedBatches (files : List SrcFile) : List (List RawRecord) :=
  (qualifying files).filterMap (fun f =>
    match f.content with
    | .records rs => some rs
    | .parseError _ => none)

/-- The `st.warning` messages of the loop: one `(filename, error)` pair per
qualifying file whose parse raised. -/
def parseWarnings (files : List SrcFile) : List (String × String) :=
  (qualifying files).filterMap (fun f =>
    match f.content with
    | .parseError m => some (f.name, m)
    | .records _ => none)

/-- Row of `df` built from one raw record whose timestamp parsed:
`hours_played = ms_played / 3600000`. -/
def toEvent (r : RawRecord) (t : Timestamp) : Event :=
  { ts := t
    ms_played := r.ms_played
    hours_played := (r.ms_played : ℚ) / 3600000
    artist := r.artist
    track := r.track }

/-- The Event Log obtained from the concatenated records once every
timestamp is known to parse (the branch of `load_data` in which
`pd.to_datetime` does not raise). -/
def buildLog (rs : List RawRecord) : List Event :=
  rs.filterMap (fun r => r.ts.map (toEvent r))

/-- `load_data()` of `src/main.py`, lines 9–39, over the directory listing:
empty-listing check, per-file parse loop, `dataframes` emptiness check, then
`pd.concat` + `pd.to_datetime` (which raises if any record's timestamp text
is unparseable) + the `hours_played` column. -/
def load_data (files : List SrcFile) : LoadResult :=
  if files.isEmpty then .fatalNoFiles
  else if (parsedBatches files).isEmpty then
    .fatalNoValidData (parseWarnings files)
  else if ((parsedBatches files).flatten).all (fun r => r.ts.isSome) then
    .ok (buildLog (parsedBatches files).flatten) (parseWarnings files)
  else .crashTs (parseWarnings files)

/-- Line 54: `df_filtered = df[df['ts'].dt.year.isin(year_filter)]`. -/
def df_filtered (df : List Event) (yearSel : List Int) : List Event :=
  df.filter (fun e => yearSel.contains e.ts.year)

/-- Line 69: `df_filtered = df_filtered.dropna(subset=['master_metadata_album_artist_name'])`.
Note this *reassigns* `df_filtered`; every later consumer (top artists,
heatmap, top tracks) sees the dropped frame. -/
def dropArtistAbsent (l : List Event) : List Event :=
  l.filter (fun e => e.artist.isSome)

/-- `df.groupby("…artist_name")['hours_played'].sum()` for one key:
total hours over the rows with that artist. -/
def artistTotal (l : List Event) (a : String) : ℚ :=
  ((l.filter (fun e => e.artist == some a)).map (fun e => e.hours_played)).sum

/-- `groupby(sort=True)` over the artist column: sorted unique keys, each
with its summed hours. -/
def groupby_artist (l : List Event) : List (String × ℚ) :=
  (((l.filterMap (fun e => e.artist)).dedup).insertionSort strLe).map
    (fun a => (a, artistTotal l a))

/-- Lines 70–78: group by artist, sum hours, `nlargest(n)`, re-sort ascending
by hours, then `top_artists['rank'] = range(1, len+1)` — the rank column is
assigned positionally *after* the ascending sort. Output rows are
`(artist, total_hours, rank)`. -/
def top_artists (l : List Event) (n : Nat) : List (String × ℚ × Nat) :=
  let sel := ((groupby_artist l).insertionSort (fun x y => y.2 ≤ x.2)).take n
  let asc := sel.insertionSort (fun x y => x.2 ≤ y.2)
  asc.enum.map (fun p => (p.2.1, p.2.2, p.1 + 1))

/-- The `(track_name, artist_name)` grouping key, present iff both fields
are (the `dropna(subset=[track, artist])` of line 166). -/
def trackKey (e : Event) : Option (String × String) :=
  match e.track, e.artist with
  | some t, some a => some (t, a)
  | _, _ => none

/-- Lines 165–174: drop rows missing track or artist, group by the
`(track, artist)` pair, sum hours, `nlargest(100)`, re-sort ascending,
and insert the positional `Rank` column. Rows are
`(track, artist, total_hours, rank)`. -/
def top_tracks (l : List Event) : List (String × String × ℚ × Nat) :=
  let l2 := l.filter (fun e => e.track.isSome && e.artist.isSome)
  let keys := ((l2.filterMap trackKey).dedup).insertionSort
    (fun x y => x.1.toList < y.1.toList ∨
      (x.1.toList = y.1.toList ∧ x.2.toList ≤ y.2.toList))
  let groups := keys.map (fun k =>
    (k, ((l2.filter (fun e => trackKey e == some k)).map
      (fun e => e.hours_played)).sum))
  let sel := (groups.insertionSort (fun x y => y.2 ≤ x.2)).take 100
  let asc := sel.insertionSort (fun x y => x.2 ≤ y.2)
  asc.enum.map (fun p => (p.2.1.1, p.2.1.2, p.2.2, p.1 + 1))

/-- Line 134: the fixed Monday-first day ordering. -/
def day_order : List String :=
  ["Monday", "Tuesday", "Wednesday", "Thursday", "Friday", "Saturday", "Sunday"]

/-- `dt.day_name()` of a timestamp, via its `Fin 7` day index. -/
def dayName (d : Fin 7) : String :=
  day_order.getD d.val ""

/-- One pivot cell: summed `hours_played` over the events of the
`(day_of_week, hour)` bucket (`fill_value = 0` when the bucket is empty). -/
def bucketSum (l : List Event) (d : Fin 7) (h : Fin 24) : ℚ :=
  ((l.filter (fun e => e.ts.dow == d && e.ts.hour == h)).map
    (fun e => e.hours_played)).sum

/-- The pivot's column index: the hours that actually occur in the data,
sorted ascending (pandas only creates columns for observed values of the
`hour` column). -/
def observedHours (l : List Event) : List (Fin 24) :=
  ((l.map (fun e => e.ts.hour)).dedup).insertionSort (· ≤ ·)

/-- Lines 132–143: `pivot_table(index='day_of_week', columns='hour',
values='hours_played', aggfunc='sum', fill_value=0)` with `day_of_week` an
ordered Categorical over `day_order`: one row per day name, Monday→Sunday
(unobserved days kept), one column per observed hour. -/
def heatmap_data (l : List Event) : List (String × List ℚ) :=
  (List.finRange 7).map (fun d =>
    (dayName d, (observedHours l).map (fun h => bucketSum l d h)))

/-! Concrete inputs used by the evaluation theorems below. -/

/-- A play of artist `A`, 3 600 000 ms = 1 hour, in 2020, Monday 00h. -/
def evA : Event := ⟨⟨2020, 0, 0⟩, 3600000, 1, some "A", some "SongA"⟩

/-- A play of artist `B`, 7 200 000 ms = 2 hours, in 2020, Tuesday 01h. -/
def evB : Event := ⟨⟨2020, 1, 1⟩, 7200000, 2, some "B", some "SongB"⟩

/-- A play with `master_metadata_album_artist_name` absent (e.g. a podcast),
1 hour, in 2020, Wednesday 02h. -/
def evPod : Event := ⟨⟨2020, 2, 2⟩, 3600000, 1, none, some "Podcast"⟩

/-- A directory entry that is not a `.json` file. -/
def txtFile : SrcFile := ⟨"notes.txt", .records []⟩

/-! ## Claim theorems -/

/-- C9: filtering the Event Log by a year set `Y` and then filtering the
result by `Y` again yields the same Filtered Log as filtering once — the
year filter of line 54 is idempotent. -/
theorem year_filter_idempotent (log : List Event) (Y : List Int) :
    df_filtered (df_filtered log Y) Y = df_filtered log Y := by
  simp [df_filtered, List.filter_filter]

/-- C7: filtering by the empty year set yields the empty Filtered Log, and
the three aggregates computed on it (through the line-69 dropna, as the
script does) are the empty ranked lists and a heatmap whose seven day rows
all carry no cells. -/
theorem empty_year_set_empty_results (log : List Event) (n : Nat) :
    df_filtered log [] = [] ∧
    top_artists (dropArtistAbsent (df_filtered log [])) n = [] ∧
    top_tracks (dropArtistAbsent (df_filtered log [])) = [] ∧
    heatmap_data (dropArtistAbsent (df_filtered log []))
      = day_order.map (fun s => (s, [])) := by
  have h : df_filtered log [] = [] := by simp [df_filtered]
  refine ⟨h, ?_, ?_, ?_⟩
  · rw [h]
    simp [top_artists, groupby_artist, dropArtistAbsent]
  · rw [h]
    simp [top_tracks, dropArtistAbsent]
  · rw [h]
    decide

/-- C5 counterexample: a directory holding a single non-JSON file contains
zero qualifying files, yet `load_data` reports the after-parse
`No valid data loaded` error, not the empty-corpus `No JSON files found`
error the claim assigns to the zero-qualifying-files condition. -/
theorem nonjson_only_dir_not_empty_corpus :
    load_data [txtFile] = .fatalNoValidData [] ∧
    load_data [txtFile] ≠ .fatalNoFiles := by
  constructor
  · decide
  · decide

/-- C5 (amended): loading halts fatally, before any Event Log is produced,
with the empty-corpus error exactly when the directory listing is empty, and
with the distinct `No valid data loaded` error when the listing is non-empty
but no `.json` file parses successfully. -/
theorem load_data_fatal_cases (files : List SrcFile) :
    (files = [] → load_data files = .fatalNoFiles) ∧
    (files ≠ [] → parsedBatches files = [] →
      load_data files = .fatalNoValidData (parseWarnings files)) ∧
    (∀ w, (LoadResult.fatalNoFiles : LoadResult) ≠ .fatalNoValidData w) := by
  refine ⟨?_, ?_, ?_⟩
  · rintro rfl; rfl
  · intro hne hb
    unfold load_data
    rw [if_neg (by simp [hne]), if_pos (by simp [hb])]
  · intro w h
    cases h

/-- C5 witness: both fatal branches of `load_data_fatal_cases` realized on
concrete directories. -/
theorem load_data_fatal_cases_witness :
    load_data [] = .fatalNoFiles ∧
    load_data [⟨"broken.json", .parseError "bad json"⟩]
      = .fatalNoValidData [("broken.json", "bad json")] := by
  refine ⟨(load_data_fatal_cases []).1 rfl, ?_⟩
  have h := (load_data_fatal_cases [⟨"broken.json", .parseError "bad json"⟩]).2.1
    (by decide) (by decide)
  rw [h]
  decide

/-- C10: a non-empty directory none of whose entries ends in `.json` makes
`load_data` skip every file without parsing it or warning about it (the
warning list is empty) and halt with the after-parse `No valid data loaded`
error rather than the empty-directory error. -/
theorem nonjson_entries_counted_not_parsed (files : List SrcFile)
    (hne : files ≠ [])
    (hnj : ∀ f ∈ files, strEndsWith f.name ".json" = false) :
    load_data files = .fatalNoValidData [] := by
  have hq : qualifying files = [] := by
    rw [qualifying, List.filter_eq_nil_iff]
    intro f hf
    simp [hnj f hf]
  have hb : parsedBatches files = [] := by rw [parsedBatches, hq]; rfl
  have hw : parseWarnings files = [] := by rw [parseWarnings, hq]; rfl
  unfold load_data
  rw [if_neg (by simp [hne]), if_pos (by simp [hb]), hw]

/-- C10 witness: the directory holding only `notes.txt`. -/
theorem nonjson_entries_counted_not_parsed_witness :
    load_data [txtFile] = .fatalNoValidData [] :=
  nonjson_entries_counted_not_parsed [txtFile] (by decide)
    (by intro f hf; fin_cases hf; decide)

/-- A good batch: one fully parseable record (30 min of artist `X`). -/
def goodRec : RawRecord := ⟨some ⟨2020, 5, 2⟩, 1800000, some "X", some "T"⟩

/-- A good file containing `goodRec`. -/
def goodFile : SrcFile := ⟨"a.json", .records [goodRec]⟩

/-- A file that parses as JSON but whose record has unparseable timestamp
text (`ts = none`). -/
def badTsFile : SrcFile := ⟨"b.json", .records [⟨none, 1000, some "Y", some "U"⟩]⟩

/-- A file whose `json.load` raises. -/
def corruptFile : SrcFile := ⟨"bad.json", .parseError "boom"⟩

/-- C4 counterexample: a directory with one fully parseable batch (`a.json`)
and one batch containing an unparseable timestamp (`b.json`): the claim says
`a.json` still enters the Event Log, but `load_data` crashes on the
concatenated frame (`pd.to_datetime` runs after `pd.concat`) and no Event
Log is produced at all. -/
theorem bad_ts_loses_whole_corpus :
    load_data [goodFile, badTsFile] = .crashTs [] := by
  decide

/-- C4 (amended): an unparseable timestamp anywhere in the successfully
parsed batches is a load-time error for the whole corpus: `load_data`
crashes and no batch — not even one whose records all parse — enters any
Event Log. -/
theorem bad_ts_crashes_load (files : List SrcFile)
    (hgood : parsedBatches files ≠ [])
    (hbad : ∃ r ∈ (parsedBatches files).flatten, r.ts = none) :
    load_data files = .crashTs (parseWarnings files) := by
  have hne : files ≠ [] := by
    intro h
    subst h
    exact hgood rfl
  unfold load_data
  rw [if_neg (by simp [hne]), if_neg (by simp [hgood]), if_neg]
  intro hall
  obtain ⟨r, hr, hts⟩ := hbad
  have := List.all_eq_true.mp hall r hr
  rw [hts] at this
  cases this

/-- C4 witness: `bad_ts_crashes_load` applied to the two-file directory. -/
theorem bad_ts_crashes_load_witness :
    load_data [goodFile, badTsFile] = .crashTs [] :=
  bad_ts_crashes_load [goodFile, badTsFile] (by decide)
    ⟨⟨none, 1000, some "Y", some "U"⟩, by decide, rfl⟩

/-- C6: when some qualifying file fails to parse but at least one other
batch parses (and every loaded record's timestamp parses, so that
`pd.to_datetime` does not raise), `load_data` still returns the Event Log
built from all successfully parsed batches, and the warning list names every
corrupt file together with its error. -/
theorem corrupt_file_warned_and_skipped (files : List SrcFile)
    (hgood : parsedBatches files ≠ [])
    (hts : ∀ r ∈ (parsedBatches files).flatten, r.ts.isSome = true)
    (hbad : ∃ f ∈ files, strEndsWith f.name ".json" = true ∧
      ∃ m, f.content = .parseError m) :
    load_data files = .ok (buildLog (parsedBatches files).flatten)
      (parseWarnings files) ∧
    ∀ f ∈ files, ∀ m, f.content = .parseError m →
      strEndsWith f.name ".json" = true →
      (f.name, m) ∈ parseWarnings files := by
  constructor
  · have hne : files ≠ [] := by
      intro h
      subst h
      exact hgood rfl
    unfold load_data
    rw [if_neg (by simp [hne]), if_neg (by simp [hgood]),
      if_pos (List.all_eq_true.mpr hts)]
  · intro f hf m hm hq
    have hfq : f ∈ qualifying files := List.mem_filter.mpr ⟨hf, hq⟩
    apply List.mem_filterMap.mpr
    refine ⟨f, hfq, ?_⟩
    rw [hm]

/-- C6 witness: a directory with one good batch and one corrupt file:
the load succeeds with the good batch's event and warns about
`(bad.json, boom)`. -/
theorem corrupt_file_warned_and_skipped_witness :
    load_data [goodFile, corruptFile]
      = .ok [toEvent goodRec ⟨2020, 5, 2⟩] [("bad.json", "boom")] ∧
    ("bad.json", "boom") ∈ parseWarnings [goodFile, corruptFile] := by
  have h := corrupt_file_warned_and_skipped [goodFile, corruptFile]
    (by decide) (by decide)
    ⟨corruptFile, by decide, by decide, "boom", rfl⟩
  exact ⟨h.1, h.2 corruptFile (by decide) "boom" rfl (by decide)⟩

/-- C8: every event of a successfully loaded Event Log carries
`hours_played = ms_played / 3600000` exactly, so multiplying back by
3 600 000 recovers `ms_played` exactly. -/
theorem hours_played_exact (files : List SrcFile) (log : List Event)
    (ws : List (String × String)) (h : load_data files = .ok log ws) :
    ∀ e ∈ log, e.hours_played = (e.ms_played : ℚ) / 3600000 ∧
      e.hours_played * 3600000 = (e.ms_played : ℚ) := by
  have hlog : log = buildLog (parsedBatches files).flatten := by
    unfold load_data at h
    by_cases h1 : files.isEmpty
    · rw [if_pos h1] at h
      cases h
    · rw [if_neg h1] at h
      by_cases h2 : (parsedBatches files).isEmpty
      · rw [if_pos h2] at h
        cases h
      · rw [if_neg h2] at h
        by_cases h3 : ((parsedBatches files).flatten).all (fun r => r.ts.isSome)
        · rw [if_pos h3] at h
          cases h
          rfl
        · rw [if_neg h3] at h
          cases h
  subst hlog
  intro e he
  obtain ⟨r, _, hr⟩ := List.mem_filterMap.mp he
  obtain ⟨t, _, ht⟩ := Option.map_eq_some'.mp hr
  subst ht
  refine ⟨rfl, ?_⟩
  show (r.ms_played : ℚ) / 3600000 * 3600000 = (r.ms_played : ℚ)
  rw [div_mul_cancel₀]
  norm_num

/-- C8 witness: the single-good-file directory loads to one event, whose
`hours_played` round-trips to its `ms_played`. -/
theorem hours_played_exact_witness :
    (toEvent goodRec ⟨2020, 5, 2⟩).hours_played
        = ((toEvent goodRec ⟨2020, 5, 2⟩).ms_played : ℚ) / 3600000 ∧
    (toEvent goodRec ⟨2020, 5, 2⟩).hours_played * 3600000
        = ((toEvent goodRec ⟨2020, 5, 2⟩).ms_played : ℚ) :=
  hours_played_exact [goodFile] [toEvent goodRec ⟨2020, 5, 2⟩] [] rfl
    (toEvent goodRec ⟨2020, 5, 2⟩) (by simp)

/-- C1: on the filtered log with artist `A` at 1 total hour and artist `B`
at 2 total hours and `N = 2`, the code's ranked-artist aggregate assigns
rank 1 to `A` — the *smallest* summed `hours_played` — because the `rank`
column is assigned positionally after `sort_values(ascending=True)`
(lines 75–78): totals increase, not decrease, as the rank index grows,
contradicting the claim (and the code's own `1st, 2nd, 3rd...` comment).
The track aggregate (lines 171–174) assigns its `Rank` column the same
way. -/
theorem rank_one_is_smallest_total :
    top_artists [evA, evB] 2 = [("A", 1, 1), ("B", 2, 2)] ∧
    top_tracks [evA, evB]
      = [("SongA", "A", 1, 1), ("SongB", "B", 2, 2)] := by
  constructor
  · simp +decide [top_artists, groupby_artist, artistTotal, List.insertionSort,
      List.orderedInsert, strLe, List.enum, List.enumFrom, evA, evB]
  · simp +decide [top_tracks, trackKey, List.insertionSort, List.orderedInsert,
      List.enum, List.enumFrom, evA, evB]

/-- C2 counterexample: one 2020 event with 1 hour played and
`master_metadata_album_artist_name` absent. It survives the year filter,
but the line-69 `dropna` reassigns `df_filtered` before the heatmap is
computed, so the heatmap's total mass is 0: the event does *not* contribute
its `hours_played` to the heatmap matrix, contrary to the claim. -/
theorem artist_absent_event_missing_from_heatmap :
    (df_filtered [evPod] [2020]).map (fun e => e.hours_played) = [1] ∧
    ((heatmap_data (dropArtistAbsent (df_filtered [evPod] [2020]))).map
      (fun r => r.2.sum)).sum = 0 := by
  constructor
  · simp +decide [df_filtered, evPod]
  · simp +decide [heatmap_data, dropArtistAbsent, df_filtered, observedHours,
      evPod, List.insertionSort, List.finRange]

/-! ## Helper lemmas for the heatmap and the dropna pipeline -/

/-- Filtering by `p`, then by `q`, then by `p` again is filtering by `q`
then `p`: the inner `p`-filter is absorbed. -/
lemma filter_absorb {α : Type} (p q : α → Bool) (l : List α) :
    ((l.filter p).filter q).filter p = (l.filter q).filter p := by
  simp only [List.filter_filter]
  apply List.filter_congr
  intro a _
  cases hp : p a <;> cases hq : q a <;> simp [hp, hq]

/-- Pointwise addition under a list sum of mapped values. -/
lemma sum_map_add_q {α : Type} (L : List α) (f g : α → ℚ) :
    (L.map (fun x => f x + g x)).sum = (L.map f).sum + (L.map g).sum := by
  induction L with
  | nil => simp
  | cons a L ih =>
    simp only [List.map_cons, List.sum_cons, ih]
    ring

/-- Summing an indicator of a single element over a duplicate-free list
containing it yields that element's value. -/
lemma sum_map_ite_eq {α : Type} [DecidableEq α] (a : α) (c : ℚ) :
    ∀ L : List α, L.Nodup → a ∈ L →
      (L.map (fun x => if x = a then c else 0)).sum = c := by
  intro L
  induction L with
  | nil => intro _ ha; cases ha
  | cons b L ih =>
    intro hnd ha
    rw [List.map_cons, List.sum_cons]
    rcases List.mem_cons.mp ha with h | h
    · subst h
      rw [if_pos rfl]
      have hz : (L.map (fun x => if x = a then c else 0)).sum = 0 := by
        apply List.sum_eq_zero
        intro x hx
        obtain ⟨y, hy, rfl⟩ := List.mem_map.mp hx
        have hne : y ≠ a := by
          rintro rfl
          exact (List.nodup_cons.mp hnd).1 hy
        simp [hne]
      rw [hz, add_zero]
    · have hb : b ≠ a := by
        rintro rfl
        exact (List.nodup_cons.mp hnd).1 h
      rw [if_neg hb, zero_add]
      exact ih (List.nodup_cons.mp hnd).2 h

/-- Splitting one pivot cell over a cons: the new event contributes its
hours exactly to its own `(day, hour)` bucket. -/
lemma bucketSum_cons (e : Event) (l : List Event) (d : Fin 7) (h : Fin 24) :
    bucketSum (e :: l) d h
      = (if d = e.ts.dow ∧ h = e.ts.hour then e.hours_played else 0)
        + bucketSum l d h := by
  by_cases hc : d = e.ts.dow ∧ h = e.ts.hour
  · obtain ⟨h1, h2⟩ := hc
    subst h1
    subst h2
    simp [bucketSum, List.filter_cons]
  · have hb : (e.ts.dow == d && e.ts.hour == h) = false := by
      rw [Bool.eq_false_iff]
      intro hT
      rw [Bool.and_eq_true, beq_iff_eq, beq_iff_eq] at hT
      exact hc ⟨hT.1.symm, hT.2.symm⟩
    rw [bucketSum, List.filter_cons, if_neg (by simp [hb]), if_neg hc,
      zero_add]
    rfl

/-- Conservation over any duplicate-free column set covering the data:
summing the pivot cells over all seven day rows and the columns `H`
recovers the total `hours_played`. -/
lemma bucketSum_conservation (H : List (Fin 24)) (hnd : H.Nodup) :
    ∀ l : List Event, (∀ e ∈ l, e.ts.hour ∈ H) →
      ((List.finRange 7).map
        (fun d => (H.map (fun h => bucketSum l d h)).sum)).sum
        = (l.map (fun e => e.hours_played)).sum := by
  intro l
  induction l with
  | nil =>
    intro _
    have hz : ∀ d : Fin 7, (H.map (fun h => bucketSum ([] : List Event) d h)).sum = 0 := by
      intro d
      apply List.sum_eq_zero
      intro x hx
      obtain ⟨y, _, rfl⟩ := List.mem_map.mp hx
      rfl
    rw [List.map_nil, List.sum_nil]
    apply List.sum_eq_zero
    intro x hx
    obtain ⟨d, _, rfl⟩ := List.mem_map.mp hx
    exact hz d
  | cons e l ih =>
    intro hmem
    have hH : e.ts.hour ∈ H := hmem e (List.mem_cons_self e l)
    have ihl := ih (fun x hx => hmem x (List.mem_cons_of_mem e hx))
    have hrow : ∀ d : Fin 7,
        (H.map (fun h => bucketSum (e :: l) d h)).sum
          = (H.map (fun h =>
              if d = e.ts.dow ∧ h = e.ts.hour then e.hours_played else 0)).sum
            + (H.map (fun h => bucketSum l d h)).sum := by
      intro d
      rw [← sum_map_add_q]
      congr 1
      apply List.map_eq_map_iff.mpr
      intro h _
      exact bucketSum_cons e l d h
    have hind : ∀ d : Fin 7,
        (H.map (fun h =>
          if d = e.ts.dow ∧ h = e.ts.hour then e.hours_played else 0)).sum
          = if d = e.ts.dow then e.hours_played else 0 := by
      intro d
      by_cases hd : d = e.ts.dow
      · rw [if_pos hd]
        have hmap : (H.map (fun h =>
            if d = e.ts.dow ∧ h = e.ts.hour then e.hours_played else 0))
            = (H.map (fun h => if h = e.ts.hour then e.hours_played else 0)) := by
          apply List.map_eq_map_iff.mpr
          intro h _
          simp [hd]
        rw [hmap]
        exact sum_map_ite_eq e.ts.hour e.hours_played H hnd hH
      · rw [if_neg hd]
        apply List.sum_eq_zero
        intro x hx
        obtain ⟨y, _, rfl⟩ := List.mem_map.mp hx
        simp [hd]
    calc ((List.finRange 7).map
            (fun d => (H.map (fun h => bucketSum (e :: l) d h)).sum)).sum
        = ((List.finRange 7).map (fun d =>
            (H.map (fun h =>
              if d = e.ts.dow ∧ h = e.ts.hour then e.hours_played else 0)).sum
            + (H.map (fun h => bucketSum l d h)).sum)).sum := by
          congr 1
          apply List.map_eq_map_iff.mpr
          intro d _
          exact hrow d
      _ = ((List.finRange 7).map (fun d =>
            (H.map (fun h =>
              if d = e.ts.dow ∧ h = e.ts.hour then e.hours_played else 0)).sum)).sum
          + ((List.finRange 7).map
              (fun d => (H.map (fun h => bucketSum l d h)).sum)).sum :=
          sum_map_add_q _ _ _
      _ = ((List.finRange 7).map
            (fun d => if d = e.ts.dow then e.hours_played else 0)).sum
          + (l.map (fun e => e.hours_played)).sum := by
          rw [ihl]
          have hm2 : (List.finRange 7).map (fun d =>
              (H.map (fun h =>
                if d = e.ts.dow ∧ h = e.ts.hour then e.hours_played else 0)).sum)
              = (List.finRange 7).map
                  (fun d => if d = e.ts.dow then e.hours_played else 0) :=
            List.map_eq_map_iff.mpr (fun d _ => hind d)
          rw [hm2]
      _ = e.hours_played + (l.map (fun e => e.hours_played)).sum := by
          rw [sum_map_ite_eq e.ts.dow e.hours_played (List.finRange 7)
            (List.nodup_finRange 7) (List.mem_finRange e.ts.dow)]
      _ = ((e :: l).map (fun e => e.hours_played)).sum := by
          rw [List.map_cons, List.sum_cons]

/-- Conservation for the pivot itself: the heatmap's cells sum to the total
`hours_played` of its input (every event's hour is one of the observed
columns, and its day one of the seven rows). -/
lemma heatmap_total (l : List Event) :
    ((heatmap_data l).map (fun r => r.2.sum)).sum
      = (l.map (fun e => e.hours_played)).sum := by
  have hnd : (observedHours l).Nodup :=
    ((List.perm_insertionSort _ _).nodup_iff).mpr (List.nodup_dedup _)
  have hmem : ∀ e ∈ l, e.ts.hour ∈ observedHours l := by
    intro e he
    rw [observedHours, List.mem_insertionSort, List.mem_dedup]
    exact List.mem_map_of_mem _ he
  rw [heatmap_data, List.map_map]
  exact bucketSum_conservation (observedHours l) hnd l hmem

/-- C2 (amended): the line-69 artist dropna is global to the filtered log,
not local to the artist aggregation: events with `artist_name` absent are
invisible to the ranked-artist aggregate *and* to the heatmap. Removing them
from the Event Log beforehand changes neither aggregate, and the heatmap's
total mass equals the summed hours of only the artist-present filtered
events. -/
theorem artist_dropna_is_global (log : List Event) (Y : List Int) (n : Nat) :
    top_artists (dropArtistAbsent (df_filtered log Y)) n
      = top_artists (dropArtistAbsent
          (df_filtered (log.filter (fun e => e.artist.isSome)) Y)) n ∧
    heatmap_data (dropArtistAbsent (df_filtered log Y))
      = heatmap_data (dropArtistAbsent
          (df_filtered (log.filter (fun e => e.artist.isSome)) Y)) ∧
    ((heatmap_data (dropArtistAbsent (df_filtered log Y))).map
        (fun r => r.2.sum)).sum
      = (((df_filtered log Y).filter (fun e => e.artist.isSome)).map
          (fun e => e.hours_played)).sum := by
  have key : dropArtistAbsent
      (df_filtered (log.filter (fun e => e.artist.isSome)) Y)
      = dropArtistAbsent (df_filtered log Y) := by
    show ((log.filter (fun e => e.artist.isSome)).filter
        (fun e => Y.contains e.ts.year)).filter (fun e => e.artist.isSome)
      = (log.filter (fun e => Y.contains e.ts.year)).filter
          (fun e => e.artist.isSome)
    exact filter_absorb _ _ _
  refine ⟨by rw [key], by rw [key], ?_⟩
  rw [heatmap_total]
  rfl

/-- C3 counterexample: a filtered log holding a single event (Monday, hour
0) yields a heatmap whose seven rows have one cell each — the pivot only
materializes columns for hours observed in the data, so the 7×24 grid with
explicit zeros for the other 23 hour buckets claimed by the spec does not
exist (e.g. the empty bucket (Monday, 5) is absent, not 0-valued). -/
theorem heatmap_grid_not_7x24 :
    (heatmap_data [evA]).map (fun r => r.2.length) = List.replicate 7 1 ∧
    ¬ (∀ r ∈ heatmap_data [evA], r.2.length = 24) := by
  constructor
  · simp +decide [heatmap_data, observedHours, List.insertionSort,
      List.finRange, evA, List.replicate]
  · intro hall
    have hmem : ("Monday", [(1 : ℚ)]) ∈ heatmap_data [evA] := by
      have hexp : heatmap_data [evA]
          = [("Monday", [1]), ("Tuesday", [0]), ("Wednesday", [0]),
             ("Thursday", [0]), ("Friday", [0]), ("Saturday", [0]),
             ("Sunday", [0])] := by
        simp +decide [heatmap_data, observedHours, bucketSum, dayName,
          day_order, List.insertionSort, List.finRange, evA]
      rw [hexp]
      exact List.mem_cons_self _ _
    have h1 := hall _ hmem
    simp at h1

/-- C3 (amended): the heatmap always has exactly the seven day rows, in the
fixed Monday→Sunday order of `day_order` regardless of which days occur in
the data; every row has one cell per *observed* hour (a bucket with no
events whose hour occurs elsewhere in the data is present as an explicit
0-valued cell, but an hour observed nowhere contributes no column at all);
and the cells sum to the total `hours_played` of the input log. -/
theorem heatmap_rows_and_total (l : List Event) :
    (heatmap_data l).map Prod.fst = day_order ∧
    (heatmap_data l).map (fun r => r.2.length)
      = List.replicate 7 (observedHours l).length ∧
    ((heatmap_data l).map (fun r => r.2.sum)).sum
      = (l.map (fun e => e.hours_played)).sum := by
  refine ⟨?_, ?_, heatmap_total l⟩
  · rw [heatmap_data, List.map_map]
    have hfst : (Prod.fst ∘ fun d : Fin 7 =>
        (dayName d, (observedHours l).map (fun h => bucketSum l d h)))
        = dayName := by
      funext d
      rfl
    rw [hfst]
    decide
  · rw [heatmap_data, List.map_map]
    have hlen : ((fun r : String × List ℚ => r.2.length) ∘ (fun d =>
        (dayName d, (observedHours l).map (fun h => bucketSum l d h))))
        = fun _ => (observedHours l).length := by
      funext d
      simp
    rw [hlen, List.map_const', List.length_finRange]

end Spotify
